import Mathlib

/-!
Verification of the Fromental wallpaper visualizer against its design
specification.  The source is a React application (`src/App.tsx`) plus a
service module (`src/services/geminiService.ts`).  JavaScript numbers are
embedded as rationals (`ℚ`), optional/nullable values as `Option`, thrown
exceptions as `Except`, and the two external generative-model calls as
oracle parameters supplying each call's outcome.
-/

set_option autoImplicit false

namespace Fromental

/-- A normalized point `[x, y]`, percentages of image width/height
(`types.ts`: `type Point = [number, number]`). -/
structure Point where
  x : ℚ
  y : ℚ
deriving DecidableEq, Repr

/-- A rectangle given by two opposite corners
(`types.ts`: `interface Box { start: Point; end: Point }`). -/
structure Box where
  start : Point
  «end» : Point
deriving DecidableEq, Repr

/-- From `types.ts`: `enum ReferenceType with values "A4_paper" and "Door"`. -/
inductive ReferenceType where
  | A4_PAPER
  | DOOR_FRAME
deriving DecidableEq, Repr

/-- From `types.ts`: `interface ImageUpload { data: string; mimeType: string }`. -/
structure ImageUpload where
  data : String
  mimeType : String
deriving DecidableEq, Repr

/-- From `types.ts`: `CalibrationData` (fields as delivered by the external service,
its `reference_type` kept as a raw string). -/
structure CalibrationData where
  reference_type : String
  real_world_cm : ℚ
deriving DecidableEq, Repr

/-- From `types.ts`: `WallpaperMetadata`. -/
structure WallpaperMetadata where
  master_width_cm : ℚ
  master_height_cm : ℚ
  roll_width_cm : ℚ
  roll_length_cm : ℚ
deriving DecidableEq, Repr

/-- From `types.ts`: `RegionGeometry`. -/
structure RegionGeometry where
  points : List (ℚ × ℚ)
  width_cm : ℚ
  height_cm : ℚ
  area_sq_m : ℚ
deriving DecidableEq, Repr

/-- The structured response of the analysis call as it actually arrives:
`JSON.parse` gives an object in which any of the four fields of
`VisualizerState` (`types.ts`) may be absent, since `analyzeMarkedRegions`
performs no validation of its own.  An absent field is `none`. -/
structure RawVisualizerState where
  calibration : Option CalibrationData
  wallpaper : Option WallpaperMetadata
  regions : Option (List RegionGeometry)
  total_rolls_estimated : Option ℚ
deriving DecidableEq, Repr

/-! ### Estimation Client (`src/services/geminiService.ts`) -/

/-- From `geminiService.ts` lines 24-32: one committed box becomes the corner list
`[[x1,y1],[x2,y1],[x2,y2],[x1,y2]]` where `(x1,y1)` is `box.start` and
`(x2,y2)` is `box.end`, taken as stored, without deriving min/max. -/
def boxAsPoints (box : Box) : List (ℚ × ℚ) :=
  let x1 := box.start.x
  let y1 := box.start.y
  let x2 := box.«end».x
  let y2 := box.«end».y
  [(x1, y1), (x2, y1), (x2, y2), (x1, y2)]

/-- From `geminiService.ts` line 24: `const boxesAsPoints = userBoxes.map(box => ...)`. -/
def boxesAsPoints (userBoxes : List Box) : List (List (ℚ × ℚ)) :=
  userBoxes.map boxAsPoints

/-- The corner order the specification describes for a committed box:
`(minX,minY), (maxX,minY), (maxX,maxY), (minX,maxY)`.  Written from the
spec's words, to be compared with `boxAsPoints` from the source. -/
def boxAsPointsSpec (box : Box) : List (ℚ × ℚ) :=
  let minX := min box.start.x box.«end».x
  let maxX := max box.start.x box.«end».x
  let minY := min box.start.y box.«end».y
  let maxY := max box.start.y box.«end».y
  [(minX, minY), (maxX, minY), (maxX, maxY), (minX, maxY)]

/-- The four field names `geminiService.ts` line 108 marks `required` in the
`responseSchema` sent with the request. -/
def responseSchemaRequired : List String :=
  ["calibration", "wallpaper", "regions", "total_rolls_estimated"]

/-- The parse with every field absent: `JSON.parse("{}")`. -/
def emptyVisualizerState : RawVisualizerState :=
  { calibration := none, wallpaper := none, regions := none,
    total_rolls_estimated := none }

/-- From `geminiService.ts` line 113: `return JSON.parse(response.text || "{}")`.
The already-parsed structured value stands in for the response text
(`none` = absent or empty text, which parses to `{}`).  The result is
returned as-is: no field is checked locally, and no `ParseError` is ever
raised, so the `Except` is always `ok`. -/
def parseAnalysisResponse (responseText : Option RawVisualizerState) :
    Except String RawVisualizerState :=
  Except.ok (responseText.getD emptyVisualizerState)

/-! ### Strip-count rule (communicated to the external service) -/

/-- Modelled from the spec: the per-region panel count is computed by the
external analysis service, not by code under `src/`; the source only states
the rule in its prompt (`geminiService.ts` lines 37-48).  Spec §4.3: "strips
needed for a region = ceiling(region horizontal width in cm / 70)". -/
def stripsNeeded (widthCm : ℚ) : ℤ :=
  ⌈widthCm / 70⌉

/-- Modelled from the spec: "`total_rolls_estimated` is the sum of per-region
strip counts" (spec §4.3), computed by the external service. -/
def totalRollsOfWidths (widthsCm : List ℚ) : ℤ :=
  (widthsCm.map stripsNeeded).sum

/-! ### Visualization Client (`src/services/geminiService.ts`) -/

/-- One entry of `response.candidates[0].content.parts`: it may carry an
inline image payload (`inlineData`, base64 data) or not. -/
structure ResponsePart where
  inlineData : Option String
deriving DecidableEq, Repr

/-- From `geminiService.ts` lines 155-161: scan
`response.candidates?.[0]?.content?.parts || []` in order; on the first part
carrying `inlineData` return the payload as a PNG data URI; if none does,
throw `"Visualization synthesis failed"`.  The input list is the parts list,
`[]` when any link of the optional chain is absent. -/
def extractVisualization : List ResponsePart → Except String String
  | [] => Except.error "Visualization synthesis failed"
  | p :: rest =>
    match p.inlineData with
    | some d => Except.ok ("data:image/png;base64," ++ d)
    | none => extractVisualization rest

/-! ### Application state (`src/App.tsx`) -/

/-- The `useState` hooks of the `App` component (`App.tsx` lines 18-35),
gathered into one record.  `mousePos` tracks the hover position; the two
busy flags realize the Analyzing/Generating phases. -/
structure AppState where
  roomImage : Option ImageUpload
  wallpaperImage : Option ImageUpload
  refType : ReferenceType
  refHeight : ℚ
  isDrawing : Bool
  startPoint : Option Point
  currentBox : Option Box
  completedBoxes : List Box
  mousePos : Option Point
  isAnalyzing : Bool
  isGenerating : Bool
  visualizedImage : Option String
  metadata : Option RawVisualizerState
  error : Option String
  keySelected : Bool
deriving DecidableEq, Repr

/-- The initial values of the `useState` hooks (`App.tsx` lines 18-35):
no images, reference type `A4_PAPER`, reference height 210, no boxes,
no result, no error, key assumed selected. -/
def initialAppState : AppState :=
  { roomImage := none
    wallpaperImage := none
    refType := ReferenceType.A4_PAPER
    refHeight := 210
    isDrawing := false
    startPoint := none
    currentBox := none
    completedBoxes := []
    mousePos := none
    isAnalyzing := false
    isGenerating := false
    visualizedImage := none
    metadata := none
    error := none
    keySelected := true }

/-- The bounding rectangle of the rendered image
(`imgRef.current.getBoundingClientRect()`). -/
structure BoundingRect where
  left : ℚ
  top : ℚ
  width : ℚ
  height : ℚ
deriving DecidableEq, Repr

/-- From `App.tsx` lines 80-94, `getNormalizedCoords`: subtract the rect's
top-left, divide by its rendered width/height, scale to 0-100, and clamp
each axis with `Math.max(0, Math.min(100, _))`.  `clientX`/`clientY` come
from the mouse event or from `touches[0]` of a touch event; the `null`
return for a missing `imgRef` is outside this path. -/
def getNormalizedCoords (clientX clientY : ℚ) (rect : BoundingRect) : Point :=
  let x := ((clientX - rect.left) / rect.width) * 100
  let y := ((clientY - rect.top) / rect.height) * 100
  { x := max 0 (min 100 x), y := max 0 (min 100 y) }

/-- From `App.tsx` lines 96-105, `handleMouseDown` (after `getNormalizedCoords`
returned `coords`): enter drawing state with a degenerate box at `coords`. -/
def handleMouseDown (s : AppState) (coords : Point) : AppState :=
  { s with isDrawing := true, startPoint := some coords,
           currentBox := some { start := coords, «end» := coords } }

/-- From `App.tsx` lines 107-114, `handleMouseMove` (after `getNormalizedCoords`
returned `coords`): record the hover position; while drawing (with a start
point) move the in-progress box's `end` corner. -/
def handleMouseMove (s : AppState) (coords : Point) : AppState :=
  let s := { s with mousePos := some coords }
  match s.isDrawing, s.startPoint with
  | true, some sp => { s with currentBox := some { start := sp, «end» := coords } }
  | _, _ => s

/-- From `App.tsx` lines 116-128, `handleMouseUp`: if drawing with an in-progress
box whose width and height (absolute differences) both exceed 0.5, append it
to `completedBoxes`; in every case leave drawing state and drop the
in-progress box and start point. -/
def handleMouseUp (s : AppState) : AppState :=
  let completed :=
    match s.isDrawing, s.currentBox with
    | true, some box =>
      let width := |box.«end».x - box.start.x|
      let height := |box.«end».y - box.start.y|
      if width > 1/2 ∧ height > 1/2 then s.completedBoxes ++ [box]
      else s.completedBoxes
    | _, _ => s.completedBoxes
  { s with completedBoxes := completed, isDrawing := false,
           startPoint := none, currentBox := none }

/-- From `App.tsx` lines 130-135, `undoLastBox`: drop the most recently committed
box; no-op on an empty list. -/
def undoLastBox (s : AppState) : AppState :=
  if s.completedBoxes.length > 0 then
    { s with completedBoxes := s.completedBoxes.dropLast }
  else s

/-- From `App.tsx` lines 63-78, `handleFileUpload`: store the decoded image via
the given setter; when the setter is `setRoomImage` additionally clear the
committed boxes, the rendered preview, the metadata and the error.
`setterIsRoomImage` models the `setter === setRoomImage` comparison. -/
def handleFileUpload (s : AppState) (img : ImageUpload)
    (setterIsRoomImage : Bool) : AppState :=
  if setterIsRoomImage then
    { s with roomImage := some img, completedBoxes := [],
             visualizedImage := none, metadata := none, error := none }
  else
    { s with wallpaperImage := some img }

/-- From `App.tsx` line 295: the wallpaper panel's clear button runs
`setWallpaperImage(null)` and nothing else. -/
def clearWallpaperImage (s : AppState) : AppState :=
  { s with wallpaperImage := none }

/-- From `App.tsx` lines 166-176, `reset`: clear both images, the preview, the
metadata, the error, the boxes and the drawing state.  `refType`,
`refHeight`, `mousePos` and `keySelected` are not touched. -/
def reset (s : AppState) : AppState :=
  { s with roomImage := none, wallpaperImage := none,
           visualizedImage := none, metadata := none, error := none,
           completedBoxes := [], isDrawing := false, startPoint := none,
           currentBox := none }

/-- From `App.tsx` line 310: the reference-type select's `onChange` only calls
`setRefType`; `refHeight` is untouched. -/
def setRefTypeAction (s : AppState) (t : ReferenceType) : AppState :=
  { s with refType := t }

/-- From `App.tsx` line 320: the height input's `onChange` only calls
`setRefHeight`. -/
def setRefHeightAction (s : AppState) (h : ℚ) : AppState :=
  { s with refHeight := h }

/-- From `App.tsx` line 146: `refType === ReferenceType.A4_PAPER ? 29.7 : refHeight`. -/
def actualHeight (s : AppState) : ℚ :=
  if s.refType = ReferenceType.A4_PAPER then 297/10 else s.refHeight

/-! ### Session controller: `startProcess` (`App.tsx` lines 137-164) -/

/-- From `App.tsx` line 139: the validation message set when a precondition is
missing. -/
def validationMessage : String :=
  "Please draw at least one area box and upload a pattern before beginning."

/-- From `App.tsx` line 159: the generic failure message. -/
def genericFailureMessage : String :=
  "Atelier synthesis failed. Please re-check markers and spatial calibration."

/-- From `App.tsx` line 154: the substring whose presence in `err.message` marks
an authentication/credential failure. -/
def authFailureSignature : String :=
  "Requested entity was not found."

/-- Whether the character sequence `pat` occurs at the head of `cs`. -/
def leadMatches : List Char → List Char → Bool
  | [], _ => true
  | _ :: _, [] => false
  | a :: as, b :: bs => a == b && leadMatches as bs

/-- Whether the character sequence `pat` occurs anywhere inside `cs`. -/
def occursIn (pat : List Char) : List Char → Bool
  | [] => pat.isEmpty
  | c :: cs => leadMatches pat (c :: cs) || occursIn pat cs

/-- JavaScript `msg.includes(pat)`: `pat` occurs as a contiguous substring
of `msg`. -/
def stringIncludes (msg pat : String) : Bool :=
  occursIn pat.data msg.data

/-- The two external calls `startProcess` can issue, in order. -/
inductive ServiceCall where
  | analyze
  | generate
deriving DecidableEq, Repr

/-- The observable outcome of one `startProcess` run: the state after it
settles, the external calls it issued, and whether it invoked
`handleSelectKey()` to prompt credential re-selection. -/
structure ProcessOutcome where
  state : AppState
  calls : List ServiceCall
  promptedKeySelection : Bool
deriving DecidableEq, Repr

/-- From `App.tsx` lines 153-163: the `catch` block followed by the `finally`
block.  A message containing the auth signature flips `keySelected` off and
fires `handleSelectKey()` without touching `error`; any other message sets
the generic failure message.  `finally` clears both busy flags. -/
def startProcessCatch (s : AppState) (msg : String) (calls : List ServiceCall) :
    ProcessOutcome :=
  if stringIncludes msg authFailureSignature then
    { state := { s with keySelected := false, isAnalyzing := false,
                        isGenerating := false }
      calls := calls
      promptedKeySelection := true }
  else
    { state := { s with error := some genericFailureMessage,
                        isAnalyzing := false, isGenerating := false }
      calls := calls
      promptedKeySelection := false }

/-- From `App.tsx` lines 137-164, `startProcess`.  The two awaited external calls
are oracles: `analyzeResult` is what `analyzeMarkedRegions` settles to and
`generateResult` what `generateMaskedVisualization` settles to (consulted
only if the first call succeeded); an `Except.error` models a rejection
whose `err.message` is the carried string.

Guard (lines 138-141): with no room image, no wallpaper image, or no
committed box, set the validation message and return without calling
anything.  Otherwise clear the error, run the analyze phase, then the
generate phase, with the `catch`/`finally` of `startProcessCatch`. -/
def startProcess (s : AppState)
    (analyzeResult : Except String RawVisualizerState)
    (generateResult : Except String String) : ProcessOutcome :=
  if s.roomImage.isNone || s.wallpaperImage.isNone || s.completedBoxes.isEmpty then
    { state := { s with error := some validationMessage }
      calls := []
      promptedKeySelection := false }
  else
    let s := { s with error := none, isAnalyzing := true }
    match analyzeResult with
    | Except.error msg => startProcessCatch s msg [ServiceCall.analyze]
    | Except.ok analysisData =>
      let s := { s with metadata := some analysisData,
                        isAnalyzing := false, isGenerating := true }
      match generateResult with
      | Except.error msg =>
        startProcessCatch s msg [ServiceCall.analyze, ServiceCall.generate]
      | Except.ok resultImage =>
        { state := { s with visualizedImage := some resultImage,
                            isAnalyzing := false, isGenerating := false }
          calls := [ServiceCall.analyze, ServiceCall.generate]
          promptedKeySelection := false }

/-! ## Theorems -/

/-- A committed box whose corners are stored in ascending order is emitted
exactly in the min/max corner order the spec describes. -/
theorem boxAsPoints_eq_spec (b : Box)
    (hx : b.start.x ≤ b.«end».x) (hy : b.start.y ≤ b.«end».y) :
    boxAsPoints b = boxAsPointsSpec b := by
  simp [boxAsPoints, boxAsPointsSpec, min_eq_left hx, max_eq_right hx,
    min_eq_left hy, max_eq_right hy]

/-- C1 fails on the code: for the box drawn right-to-left and bottom-to-top
from `(60,40)` to `(10,10)`, `boxAsPoints` (`geminiService.ts` lines 24-32)
emits `[(60,40),(10,40),(10,10),(60,10)]`, whose first corner is not the
`(minX,minY)` corner `(10,10)` required by the claimed fixed order. -/
theorem C1_corner_order_counterexample :
    boxAsPoints { start := { x := 60, y := 40 }, «end» := { x := 10, y := 10 } } ≠
      boxAsPointsSpec { start := { x := 60, y := 40 }, «end» := { x := 10, y := 10 } } ∧
    boxAsPoints { start := { x := 60, y := 40 }, «end» := { x := 10, y := 10 } } =
      [(60, 40), (10, 40), (10, 10), (60, 10)] := by
  refine ⟨?_, ?_⟩ <;> decide

/-- C1 amended: the Estimation Client emits each committed Box's corners in
the fixed order `(start.x,start.y), (end.x,start.y), (end.x,end.y),
(start.x,end.y)` without deriving min/max; only when every box is stored
with `start.x ≤ end.x` and `start.y ≤ end.y` (drawn left-to-right and
top-to-bottom) does this coincide with the claimed
`(minX,minY), (maxX,minY), (maxX,maxY), (minX,maxY)` clockwise order. -/
theorem C1_corner_order_amended (userBoxes : List Box)
    (h : ∀ b ∈ userBoxes, b.start.x ≤ b.«end».x ∧ b.start.y ≤ b.«end».y) :
    boxesAsPoints userBoxes = userBoxes.map boxAsPointsSpec := by
  unfold boxesAsPoints
  exact List.map_congr_left fun b hb => boxAsPoints_eq_spec b (h b hb).1 (h b hb).2

/-- Witness for C1 amended: a box drawn left-to-right, top-to-bottom. -/
theorem C1_corner_order_amended_witness :
    boxesAsPoints [{ start := { x := 10, y := 10 }, «end» := { x := 60, y := 40 } }] =
      [{ start := { x := 10, y := 10 }, «end» := { x := 60, y := 40 } }].map boxAsPointsSpec :=
  C1_corner_order_amended _ (by decide)

/-- C2 fails on the code: when the structured response's text is absent or
empty, `analyzeMarkedRegions` returns `JSON.parse("{}")` — an object with
every required field (in particular `calibration`) missing — instead of
failing with a `ParseError`.  (`geminiService.ts` line 113.) -/
theorem C2_required_fields_counterexample :
    parseAnalysisResponse none = Except.ok emptyVisualizerState ∧
    emptyVisualizerState.calibration = none ∧
    emptyVisualizerState.wallpaper = none ∧
    emptyVisualizerState.regions = none ∧
    emptyVisualizerState.total_rolls_estimated = none :=
  ⟨rfl, rfl, rfl, rfl, rfl⟩

/-- C2 amended: the Estimation Client lists the four fields as `required`
only in the outbound request's response schema; it performs no local
validation of the inbound response and never fails with a `ParseError` — it
returns the parsed object unchanged for every response, and a response with
empty text yields an object with all four required fields absent. -/
theorem C2_required_fields_amended :
    (∀ raw : Option RawVisualizerState, ∃ v, parseAnalysisResponse raw = Except.ok v) ∧
    parseAnalysisResponse none =
      Except.ok { calibration := none, wallpaper := none, regions := none,
                  total_rolls_estimated := none } ∧
    responseSchemaRequired =
      ["calibration", "wallpaper", "regions", "total_rolls_estimated"] :=
  ⟨fun raw => ⟨raw.getD emptyVisualizerState, rfl⟩, rfl, rfl⟩

/-- C3: the strip-count rule.  Strip count `⌈width/70⌉` is monotone
non-decreasing in the width, a width that is an exact multiple of 70 adds no
extra strip, 140 cm needs 2 strips, 69 cm needs 1, 141 cm needs 3 (the
partial final strip counting as one full roll), and `total_rolls_estimated`
is the sum of the per-region strip counts. -/
theorem C3_strip_rule :
    (∀ w1 w2 : ℚ, w1 ≤ w2 → stripsNeeded w1 ≤ stripsNeeded w2) ∧
    (∀ k : ℕ, stripsNeeded (70 * k) = k) ∧
    stripsNeeded 140 = 2 ∧ stripsNeeded 69 = 1 ∧ stripsNeeded 141 = 3 ∧
    (∀ widths : List ℚ, totalRollsOfWidths widths = (widths.map stripsNeeded).sum) := by
  refine ⟨fun w1 w2 h => ?_, fun k => ?_, ?_, ?_, ?_, fun widths => rfl⟩
  · exact Int.ceil_mono (by apply div_le_div_of_nonneg_right h; norm_num)
  · unfold stripsNeeded
    rw [mul_comm, mul_div_assoc]
    norm_num
  · unfold stripsNeeded
    rw [Int.ceil_eq_iff]
    norm_num
  · unfold stripsNeeded
    rw [Int.ceil_eq_iff]
    norm_num
  · unfold stripsNeeded
    rw [Int.ceil_eq_iff]
    norm_num

/-- Witness for C3: monotonicity at the concrete widths 69 and 140. -/
theorem C3_strip_rule_witness : stripsNeeded 69 ≤ stripsNeeded 140 :=
  C3_strip_rule.1 69 140 (by norm_num)

/-- C4: with the room image missing, the wallpaper image missing, or no
committed box, `startProcess` only sets the validation message: the
resulting state is the source state with `error` replaced, so the busy
flags (the state machine phase) are untouched and the session stays Idle,
no external call is issued, and no credential prompt fires. -/
theorem C4_validation_gate (s : AppState)
    (ar : Except String RawVisualizerState) (gr : Except String String)
    (h : s.roomImage = none ∨ s.wallpaperImage = none ∨ s.completedBoxes = []) :
    startProcess s ar gr =
      { state := { s with error := some validationMessage }
        calls := []
        promptedKeySelection := false } ∧
    (startProcess s ar gr).state.isAnalyzing = s.isAnalyzing ∧
    (startProcess s ar gr).state.isGenerating = s.isGenerating ∧
    (startProcess s ar gr).calls = [] := by
  have hguard :
      (s.roomImage.isNone || s.wallpaperImage.isNone || s.completedBoxes.isEmpty) = true := by
    rcases h with h | h | h <;> simp [h]
  refine ⟨?_, ?_, ?_, ?_⟩ <;> simp [startProcess, hguard]

/-- Witness for C4: the empty initial session (no images, no boxes). -/
theorem C4_validation_gate_witness :
    startProcess initialAppState (Except.error "e") (Except.error "e2") =
      { state := { initialAppState with error := some validationMessage }
        calls := []
        promptedKeySelection := false } :=
  (C4_validation_gate initialAppState (Except.error "e") (Except.error "e2")
    (Or.inl rfl)).1

/-- C5: while drawing with an in-progress box, `handleMouseUp` appends the
box to the committed list (at the end, preserving draw order) exactly when
its absolute width and height both exceed 0.5; in every case it leaves
drawing state and discards the in-progress box and start point, and a
zero-size box (`start = end`) is never appended. -/
theorem C5_commit_box (s : AppState) (box : Box)
    (hd : s.isDrawing = true) (hb : s.currentBox = some box) :
    ((|box.«end».x - box.start.x| > 1/2 ∧ |box.«end».y - box.start.y| > 1/2) →
        (handleMouseUp s).completedBoxes = s.completedBoxes ++ [box]) ∧
    (¬(|box.«end».x - box.start.x| > 1/2 ∧ |box.«end».y - box.start.y| > 1/2) →
        (handleMouseUp s).completedBoxes = s.completedBoxes) ∧
    (handleMouseUp s).isDrawing = false ∧
    (handleMouseUp s).currentBox = none ∧
    (handleMouseUp s).startPoint = none ∧
    (box.start = box.«end» → (handleMouseUp s).completedBoxes = s.completedBoxes) := by
  unfold handleMouseUp
  rw [hd, hb]
  refine ⟨fun hc => ?_, fun hc => ?_, rfl, rfl, rfl, fun hz => ?_⟩
  · simp only [if_pos hc]
  · simp only [if_neg hc]
  · simp [hz]

/-- Witness for C5: releasing after a real drag appends the drawn box. -/
theorem C5_commit_box_witness :
    (handleMouseUp { initialAppState with
        isDrawing := true
        startPoint := some { x := 10, y := 10 }
        currentBox := some { start := { x := 10, y := 10 },
                             «end» := { x := 60, y := 40 } } }).completedBoxes =
      initialAppState.completedBoxes ++
        [{ start := { x := 10, y := 10 }, «end» := { x := 60, y := 40 } }] :=
  (C5_commit_box _ _ rfl rfl).1 (by norm_num)

/-- C6: over an image rectangle of positive rendered width and height,
`getNormalizedCoords` subtracts the rectangle's top-left offset, divides by
its width/height, scales by 100 and clamps each axis independently, so both
coordinates of the result always land in `[0, 100]`; a raw position whose
unclamped image of an axis already lies in `[0, 100]` passes through that
axis unchanged. -/
theorem C6_map_to_normalized (clientX clientY : ℚ) (rect : BoundingRect)
    (_hw : 0 < rect.width) (_hh : 0 < rect.height) :
    (0 ≤ (getNormalizedCoords clientX clientY rect).x ∧
      (getNormalizedCoords clientX clientY rect).x ≤ 100 ∧
      0 ≤ (getNormalizedCoords clientX clientY rect).y ∧
      (getNormalizedCoords clientX clientY rect).y ≤ 100) ∧
    (getNormalizedCoords clientX clientY rect).x =
      max 0 (min 100 (((clientX - rect.left) / rect.width) * 100)) ∧
    (getNormalizedCoords clientX clientY rect).y =
      max 0 (min 100 (((clientY - rect.top) / rect.height) * 100)) ∧
    (0 ≤ ((clientX - rect.left) / rect.width) * 100 →
      ((clientX - rect.left) / rect.width) * 100 ≤ 100 →
      (getNormalizedCoords clientX clientY rect).x =
        ((clientX - rect.left) / rect.width) * 100) := by
  refine ⟨⟨le_max_left 0 _, ?_, le_max_left 0 _, ?_⟩, rfl, rfl, fun h0 h100 => ?_⟩
  · exact max_le (by norm_num) (min_le_left 100 _)
  · exact max_le (by norm_num) (min_le_left 100 _)
  · show max 0 (min 100 (((clientX - rect.left) / rect.width) * 100)) = _
    rw [min_eq_right h100, max_eq_right h0]

/-- Witness for C6: a pointer position inside a 10×10 image at the origin. -/
theorem C6_map_to_normalized_witness :
    0 ≤ (getNormalizedCoords 5 5 { left := 0, top := 0, width := 10, height := 10 }).x ∧
    (getNormalizedCoords 5 5 { left := 0, top := 0, width := 10, height := 10 }).x ≤ 100 ∧
    0 ≤ (getNormalizedCoords 5 5 { left := 0, top := 0, width := 10, height := 10 }).y ∧
    (getNormalizedCoords 5 5 { left := 0, top := 0, width := 10, height := 10 }).y ≤ 100 :=
  (C6_map_to_normalized 5 5 { left := 0, top := 0, width := 10, height := 10 }
    (by norm_num) (by norm_num)).1

/-- C7: the resolved calibration height sent downstream is exactly 29.7 cm
whenever the reference type is `A4_PAPER`, regardless of the stored custom
value; under `DOOR_FRAME` it is the currently set numeric value (initially
210); and switching to A4 and back to door-frame preserves the last custom
value entered, both in the stored field and in the resolved height. -/
theorem C7_calibration_height :
    (∀ s : AppState, actualHeight (setRefTypeAction s ReferenceType.A4_PAPER) = 297/10) ∧
    (∀ s : AppState, actualHeight (setRefTypeAction s ReferenceType.DOOR_FRAME) = s.refHeight) ∧
    (∀ (s : AppState) (v : ℚ),
        (setRefTypeAction (setRefTypeAction (setRefHeightAction s v)
            ReferenceType.A4_PAPER) ReferenceType.DOOR_FRAME).refHeight = v ∧
        actualHeight (setRefTypeAction (setRefTypeAction (setRefHeightAction s v)
            ReferenceType.A4_PAPER) ReferenceType.DOOR_FRAME) = v) ∧
    initialAppState.refHeight = 210 ∧
    actualHeight initialAppState = 297/10 := by
  refine ⟨fun s => ?_, fun s => ?_, fun s v => ⟨rfl, ?_⟩, rfl, rfl⟩ <;>
    simp [actualHeight, setRefTypeAction, setRefHeightAction]

/-- C8: with the preconditions met, a failure of either external call whose
message carries the known auth signature flips `keySelected` off, prompts
credential re-selection, and leaves the error slot empty (the generic
message is not set); any other failure sets exactly the generic failure
message and prompts nothing.  The conclusions do not depend on the incoming
`error` slot — the attempt cleared it — and a fully successful run ends with
no error shown. -/
theorem C8_failure_handling (s : AppState)
    (ar : Except String RawVisualizerState) (gr : Except String String)
    (hroom : s.roomImage.isNone = false) (hwall : s.wallpaperImage.isNone = false)
    (hboxes : s.completedBoxes.isEmpty = false) :
    (∀ msg, ar = Except.error msg →
        (stringIncludes msg authFailureSignature = true →
            (startProcess s ar gr).promptedKeySelection = true ∧
            (startProcess s ar gr).state.keySelected = false ∧
            (startProcess s ar gr).state.error = none) ∧
        (stringIncludes msg authFailureSignature = false →
            (startProcess s ar gr).promptedKeySelection = false ∧
            (startProcess s ar gr).state.error = some genericFailureMessage)) ∧
    (∀ d msg, ar = Except.ok d → gr = Except.error msg →
        (stringIncludes msg authFailureSignature = true →
            (startProcess s ar gr).promptedKeySelection = true ∧
            (startProcess s ar gr).state.keySelected = false ∧
            (startProcess s ar gr).state.error = none) ∧
        (stringIncludes msg authFailureSignature = false →
            (startProcess s ar gr).promptedKeySelection = false ∧
            (startProcess s ar gr).state.error = some genericFailureMessage)) ∧
    (∀ d img, ar = Except.ok d → gr = Except.ok img →
        (startProcess s ar gr).state.error = none) := by
  have hguard :
      (s.roomImage.isNone || s.wallpaperImage.isNone || s.completedBoxes.isEmpty) = false := by
    rw [hroom, hwall, hboxes]
    rfl
  refine ⟨fun msg har => ⟨fun hsig => ?_, fun hsig => ?_⟩,
          fun d msg har hgr => ⟨fun hsig => ?_, fun hsig => ?_⟩,
          fun d img har hgr => ?_⟩
  · subst har
    simp [startProcess, startProcessCatch, hguard, hsig]
  · subst har
    simp [startProcess, startProcessCatch, hguard, hsig]
  · subst har
    subst hgr
    simp [startProcess, startProcessCatch, hguard, hsig]
  · subst har
    subst hgr
    simp [startProcess, startProcessCatch, hguard, hsig]
  · subst har
    subst hgr
    simp [startProcess, hguard]

/-- Witness for C8: a ready session whose analyze call rejects with the auth
signature itself prompts key re-selection and shows no error message. -/
theorem C8_failure_handling_witness :
    (startProcess { initialAppState with
        roomImage := some { data := "r", mimeType := "image/png" }
        wallpaperImage := some { data := "w", mimeType := "image/png" }
        completedBoxes := [{ start := { x := 10, y := 10 },
                             «end» := { x := 60, y := 40 } }] }
      (Except.error authFailureSignature) (Except.ok "img")).promptedKeySelection = true ∧
    (startProcess { initialAppState with
        roomImage := some { data := "r", mimeType := "image/png" }
        wallpaperImage := some { data := "w", mimeType := "image/png" }
        completedBoxes := [{ start := { x := 10, y := 10 },
                             «end» := { x := 60, y := 40 } }] }
      (Except.error authFailureSignature) (Except.ok "img")).state.keySelected = false ∧
    (startProcess { initialAppState with
        roomImage := some { data := "r", mimeType := "image/png" }
        wallpaperImage := some { data := "w", mimeType := "image/png" }
        completedBoxes := [{ start := { x := 10, y := 10 },
                             «end» := { x := 60, y := 40 } }] }
      (Except.error authFailureSignature) (Except.ok "img")).state.error = none :=
  ((C8_failure_handling { initialAppState with
        roomImage := some { data := "r", mimeType := "image/png" }
        wallpaperImage := some { data := "w", mimeType := "image/png" }
        completedBoxes := [{ start := { x := 10, y := 10 },
                             «end» := { x := 60, y := 40 } }] }
      (Except.error authFailureSignature) (Except.ok "img")
      rfl rfl rfl).1 authFailureSignature rfl).1 (by decide)

/-- If every part of the response lacks an inline payload, extraction
throws the synthesis-failed error. -/
theorem extractVisualization_all_none (parts : List ResponsePart)
    (h : ∀ q ∈ parts, q.inlineData = none) :
    extractVisualization parts = Except.error "Visualization synthesis failed" := by
  induction parts with
  | nil => rfl
  | cons p rest ih =>
    have hp : p.inlineData = none := h p (List.mem_cons_self p rest)
    have := ih fun q hq => h q (List.mem_cons_of_mem p hq)
    simp [extractVisualization, hp, this]

/-- Extraction returns the payload of the first part that carries one. -/
theorem extractVisualization_first (pre : List ResponsePart) (p : ResponsePart)
    (post : List ResponsePart) (d : String)
    (hpre : ∀ q ∈ pre, q.inlineData = none) (hp : p.inlineData = some d) :
    extractVisualization (pre ++ p :: post) =
      Except.ok ("data:image/png;base64," ++ d) := by
  induction pre with
  | nil => simp [extractVisualization, hp]
  | cons q rest ih =>
    have hq : q.inlineData = none := hpre q (List.mem_cons_self q rest)
    have := ih fun r hr => hpre r (List.mem_cons_of_mem q hr)
    simp [extractVisualization, hq, this]

/-- C9: the Visualization Client surfaces the first inline image payload in
the response as a `data:image/png;base64,` data URI, skipping any earlier
parts without a payload; a response in which no part carries an inline
payload makes it fail with the synthesis error instead of returning a
value. -/
theorem C9_extract_first_image (parts : List ResponsePart) :
    (∀ (pre : List ResponsePart) (p : ResponsePart) (post : List ResponsePart)
        (d : String), parts = pre ++ p :: post →
        (∀ q ∈ pre, q.inlineData = none) → p.inlineData = some d →
        extractVisualization parts = Except.ok ("data:image/png;base64," ++ d)) ∧
    ((∀ q ∈ parts, q.inlineData = none) →
        extractVisualization parts = Except.error "Visualization synthesis failed") := by
  refine ⟨fun pre p post d hsplit hpre hp => ?_, fun h => extractVisualization_all_none parts h⟩
  rw [hsplit]
  exact extractVisualization_first pre p post d hpre hp

/-- Witness for C9: a response whose first part is payload-free and whose
second carries data `"AAA"` yields the PNG data URI of `"AAA"`. -/
theorem C9_extract_first_image_witness :
    extractVisualization
        [{ inlineData := none }, { inlineData := some "AAA" }] =
      Except.ok ("data:image/png;base64," ++ "AAA") :=
  (C9_extract_first_image [{ inlineData := none }, { inlineData := some "AAA" }]).1
    [{ inlineData := none }] { inlineData := some "AAA" } [] "AAA" rfl (by decide) rfl

/-- C10: uploading a new wallpaper image or clearing it changes only the
wallpaper slot — committed boxes, the latest estimation metadata, the
rendered preview and the error slot are untouched — while uploading a new
room image is the upload action that clears all four derived fields. -/
theorem C10_wallpaper_frame_effect :
    (∀ (s : AppState) (img : ImageUpload),
        (handleFileUpload s img false).wallpaperImage = some img ∧
        (handleFileUpload s img false).completedBoxes = s.completedBoxes ∧
        (handleFileUpload s img false).metadata = s.metadata ∧
        (handleFileUpload s img false).visualizedImage = s.visualizedImage ∧
        (handleFileUpload s img false).error = s.error ∧
        (handleFileUpload s img false).roomImage = s.roomImage) ∧
    (∀ s : AppState,
        (clearWallpaperImage s).wallpaperImage = none ∧
        (clearWallpaperImage s).completedBoxes = s.completedBoxes ∧
        (clearWallpaperImage s).metadata = s.metadata ∧
        (clearWallpaperImage s).visualizedImage = s.visualizedImage ∧
        (clearWallpaperImage s).error = s.error ∧
        (clearWallpaperImage s).roomImage = s.roomImage) ∧
    (∀ (s : AppState) (img : ImageUpload),
        (handleFileUpload s img true).roomImage = some img ∧
        (handleFileUpload s img true).completedBoxes = [] ∧
        (handleFileUpload s img true).metadata = none ∧
        (handleFileUpload s img true).visualizedImage = none ∧
        (handleFileUpload s img true).error = none) := by
  refine ⟨fun s img => ?_, fun s => ?_, fun s img => ?_⟩ <;>
    simp [handleFileUpload, clearWallpaperImage]

end Fromental
